import Mathlib

/-!
# Verification of the tape-monkey multi-track recording engine

Shallow embedding of the core of the `mdeeds/tape-monkey` repository:
the transport scheduler (`TapeDeckEngine`), the per-track sample buffer
(`Track`), the playback worklet (`PlaybackProcessor`), the mixer with
solo/mute resolution (`MixerEngine`), the song timing source
(`SongState`), the metronome (`MetronomeEngine`) and the saturation
curve generator (`Saturator`).

Sample values and seconds are modelled as rationals (the claims under
study are about control flow, indexing and gating, not float rounding);
the saturation curve, which is genuinely about `tanh`, is modelled over
the reals.  JavaScript `Infinity` / `-Infinity` sentinels of the dirty
region are modelled with `Option`, and `null`-able values with `Option`.
-/

/-- JavaScript `Math.round`: round half up, i.e. `⌊x + 1/2⌋`. -/
def jsRound (x : ℚ) : ℤ := ⌊x + 1/2⌋

/-- JavaScript indexed read `buf[i] || 0`: out-of-range reads give
`undefined`, which the `|| 0` in `PlaybackProcessor.process` turns
into `0`. -/
def getOr0 (l : List ℚ) (i : ℤ) : ℚ :=
  if i < 0 then 0 else ((l.get? i.toNat).getD 0)

/-- `Float32Array.prototype.set` / `AudioBuffer.copyToChannel` at an
offset: overwrite `buf` starting at `start` with `data`, clamped to the
destination's fixed length (`copyToChannel` copies at most
`buf.length - start` values and never grows the destination). -/
def writeInto (buf data : List ℚ) (start : ℕ) : List ℚ :=
  buf.take start ++ data.take (buf.length - start) ++ buf.drop (start + data.length)

theorem writeInto_length (buf data : List ℚ) (start : ℕ) :
    (writeInto buf data start).length = buf.length := by
  simp only [writeInto, List.length_append, List.length_take, List.length_drop]
  omega

/-! ## PlaybackProcessor (src/model/PlaybackProcessor.js)

An `AudioWorkletProcessor` that plays a transferred copy of the
track's buffers.  Its message-reachable state is the pair of buffers,
the scheduled `startFrame` (`-1` = not started) and the playhead. -/

/-- `FRAMES_PER_QUANTUM` from PlaybackProcessor.js. -/
def framesPerQuantum : ℕ := 128

structure PlaybackProcessor where
  leftBuffer : List ℚ
  rightBuffer : List ℚ
  /-- `-1` means playback has not been started. -/
  startFrame : ℤ
  playheadFrame : ℕ
  deriving DecidableEq

/-- A fresh `PlaybackProcessor` (field initializers in the source). -/
def PlaybackProcessor.init : PlaybackProcessor :=
  { leftBuffer := [], rightBuffer := [], startFrame := -1, playheadFrame := 0 }

/-- The messages a `Track` posts to its playback node's port:
`set_buffers` (from `Track.update`), `start` (from `Track.play`) and
`stop` (from `Track.stop`). -/
inductive PlaybackMessage where
  | setBuffers (left right : List ℚ)
  | start (startFrame : ℤ) (loop : Bool)
  | stop
  deriving DecidableEq

/-- `PlaybackProcessor.#handleMessage`.  The source checks
`type === 'set_buffers'` and `type === 'start'` only; a `'stop'`
message matches no branch and leaves the processor untouched.  In the
`'start'` branch only `data.startFrame` is read — the `loop` flag sent
by `Track.play` is never stored. -/
def PlaybackProcessor.handleMessage (st : PlaybackProcessor) (msg : PlaybackMessage) :
    PlaybackProcessor :=
  match msg with
  | .setBuffers l r => { st with leftBuffer := l, rightBuffer := r }
  | .start sf _loop => { st with startFrame := sf, playheadFrame := 0 }
  | .stop => st

/-- `bufferFrameIndex` computed inside the render loop of
`PlaybackProcessor.process`:
`effectiveLoopStart + (playheadFrame % effectiveLoopDuration)`. -/
def bufferFrameIndex (effectiveLoopStart effectiveLoopDuration : ℤ) (playhead : ℕ) : ℤ :=
  effectiveLoopStart + (playhead : ℤ) % effectiveLoopDuration

/-- The effective loop window of `PlaybackProcessor.process`: from the
parameter values in seconds, `loopStartFrame = ⌊loopStart*sampleRate⌋`,
`loopEndFrame` from the duration (`0` or negative meaning the full
buffer), both clamped into the buffer; returns
`(effectiveLoopStart, effectiveLoopDuration)`. -/
def effectiveRange (bufLen : ℕ) (sampleRate loopStartSeconds loopDurationSeconds : ℚ) :
    ℤ × ℤ :=
  let len : ℤ := bufLen
  let loopStartFrame : ℤ := ⌊loopStartSeconds * sampleRate⌋
  let loopEndFrame : ℤ :=
    if loopDurationSeconds > 0 then loopStartFrame + ⌊loopDurationSeconds * sampleRate⌋
    else len
  let effectiveLoopStart : ℤ := max 0 (min loopStartFrame len)
  let effectiveLoopEnd : ℤ := max effectiveLoopStart (min loopEndFrame len)
  (effectiveLoopStart, effectiveLoopEnd - effectiveLoopStart)

/-- `PlaybackProcessor.process`.  `sampleRate` and `currentFrame` are
the audio-worklet globals, `loopStartSeconds`/`loopDurationSeconds`
the k-rate parameter values for this quantum.  Returns the rendered
stereo quantum (all-zero when an early return leaves the pre-zeroed
output untouched) together with the new processor state. -/
def PlaybackProcessor.process (st : PlaybackProcessor)
    (sampleRate loopStartSeconds loopDurationSeconds : ℚ) (currentFrame : ℤ) :
    (List ℚ × List ℚ) × PlaybackProcessor :=
  let silence : List ℚ := List.replicate framesPerQuantum 0
  if st.startFrame = -1 ∨ st.leftBuffer.length = 0 then ((silence, silence), st)
  else if currentFrame < st.startFrame then ((silence, silence), st)
  else
    let eff := effectiveRange st.leftBuffer.length sampleRate loopStartSeconds
      loopDurationSeconds
    if eff.2 ≤ 0 then ((silence, silence), st)
    else
      let leftChannel := (List.range framesPerQuantum).map fun i =>
        getOr0 st.leftBuffer (bufferFrameIndex eff.1 eff.2 (st.playheadFrame + i))
      let rightChannel := (List.range framesPerQuantum).map fun i =>
        getOr0 st.rightBuffer (bufferFrameIndex eff.1 eff.2 (st.playheadFrame + i))
      ((leftChannel, rightChannel),
        { st with playheadFrame := st.playheadFrame + framesPerQuantum })

/-! ## The playback AudioWorkletNode

`PlaybackProcessor.parameterDescriptors` declares exactly two
parameters; the node's `parameters` map is built from that list with
the declared `defaultValue` of `0` for each. -/

/-- The parameter name `'loopStart'`. -/
def loopStartName : String := "loopStart"

/-- The parameter name `'loopDuration'`. -/
def loopDurationName : String := "loopDuration"

/-- The parameter name `'latencyCompensation'` looked up by
`Track.setLatencyCompensation`. -/
def latencyCompensationName : String := "latencyCompensation"

/-- The `name` fields of `PlaybackProcessor.parameterDescriptors`. -/
def parameterDescriptorNames : List String := [loopStartName, loopDurationName]

/-- The `AudioWorkletNode` wrapping a `PlaybackProcessor`: its
`parameters` map (name → current value) and the processor state
reachable through its port. -/
structure PlaybackNode where
  params : List (String × ℚ)
  proc : PlaybackProcessor
  deriving DecidableEq

/-- `node.parameters.get(name)`: `undefined` (`none`) when `name` was
not declared in `parameterDescriptors`. -/
def paramGet (node : PlaybackNode) (name : String) : Option ℚ :=
  (node.params.find? (fun p => p.1 = name)).map (·.2)

/-- Assignment to `node.parameters.get(name).value`. -/
def paramSet (node : PlaybackNode) (name : String) (v : ℚ) : PlaybackNode :=
  { node with params := node.params.map (fun p => if p.1 = name then (p.1, v) else p) }

/-- A fresh playback node: parameters from the descriptors at their
declared defaults, fresh processor. -/
def PlaybackNode.init : PlaybackNode :=
  { params := parameterDescriptorNames.map (fun n => (n, 0)), proc := .init }

/-! ## Track (src/unnamed/part_006)

A `Track` owns one pre-allocated stereo `AudioBuffer` (`audioLeft`,
`audioRight`, both of the fixed `bufferLength`), cached statistics, the
dirty region `[statsMinFrame, statsMaxFrame)` and its playback node.
The JavaScript sentinels `statsMinFrame = Infinity` and
`statsMaxFrame = -Infinity` are modelled by `none`. -/

structure Track where
  audioLeft : List ℚ
  audioRight : List ℚ
  /-- Fixed at construction: `sampleRate * FIVE_MINUTES_IN_SECONDS`. -/
  bufferLength : ℕ
  rmsLeftDb : ℚ
  peakLeftDb : ℚ
  rmsRightDb : ℚ
  peakRightDb : ℚ
  crossChannelCorrelation : ℚ
  /-- `#statsMinFrame`; `none` is the `Infinity` sentinel. -/
  statsMinFrame : Option ℤ
  /-- `#statsMaxFrame`; `none` is the `-Infinity` sentinel. -/
  statsMaxFrame : Option ℤ
  playbackNode : PlaybackNode
  deriving DecidableEq

/-- `Math.min(statsMinFrame, startFrame)` with `statsMinFrame`
possibly the `Infinity` sentinel. -/
def dirtyMin (o : Option ℤ) (s : ℤ) : Option ℤ :=
  some (match o with | none => s | some m => min m s)

/-- `Math.max(statsMaxFrame, endFrame)` with `statsMaxFrame` possibly
the `-Infinity` sentinel. -/
def dirtyMax (o : Option ℤ) (e : ℤ) : Option ℤ :=
  some (match o with | none => e | some m => max m e)

/-- `Track.write(leftData, rightData, startFrame)`: negative
`startFrame` is rejected; a write that would pass `bufferLength` is
truncated to the remaining capacity (and dropped entirely, without
marking the dirty region, when no capacity remains); otherwise the
data is copied in full.  Successful writes expand the dirty region to
`[startFrame, startFrame + leftData.length)` — in the truncating
branch the source marks the *untruncated* `endFrame`. -/
def Track.write (t : Track) (leftData rightData : List ℚ) (startFrame : ℤ) : Track :=
  if startFrame < 0 then t
  else
    let s : ℕ := startFrame.toNat
    let endFrame : ℤ := startFrame + leftData.length
    if endFrame > (t.bufferLength : ℤ) then
      let framesToWrite : ℤ := (t.bufferLength : ℤ) - startFrame
      if framesToWrite ≤ 0 then t
      else
        { t with
          audioLeft := writeInto t.audioLeft (leftData.take framesToWrite.toNat) s
          audioRight := writeInto t.audioRight (rightData.take framesToWrite.toNat) s
          statsMinFrame := dirtyMin t.statsMinFrame startFrame
          statsMaxFrame := dirtyMax t.statsMaxFrame endFrame }
    else
      { t with
        audioLeft := writeInto t.audioLeft leftData s
        audioRight := writeInto t.audioRight rightData s
        statsMinFrame := dirtyMin t.statsMinFrame startFrame
        statsMaxFrame := dirtyMax t.statsMaxFrame endFrame }

/-- `Track.update`: posts copies of the audio buffers to the playback
processor (`set_buffers`). -/
def Track.update (t : Track) : Track :=
  { t with playbackNode := { t.playbackNode with
      proc := t.playbackNode.proc.handleMessage (.setBuffers t.audioLeft t.audioRight) } }

/-- `Track.play(startFrame, tapeStartTime, tapeEndTime, loop)`: sets
the `loopStart` and `loopDuration` parameters and posts a `start`
message.  `tapeEndTime` may be `null` (the full-track default in
`TapeDeckEngine.#play`); JavaScript coerces `null` to `0` in
`tapeEndTime - tapeStartTime`. -/
def Track.play (t : Track) (startFrame : ℤ) (tapeStartTime : ℚ) (tapeEndTime : Option ℚ)
    (loop : Bool) : Track :=
  let node := paramSet t.playbackNode loopStartName tapeStartTime
  let node := paramSet node loopDurationName ((tapeEndTime.getD 0) - tapeStartTime)
  { t with playbackNode := { node with
      proc := node.proc.handleMessage (.start startFrame loop) } }

/-- `Track.setLatencyCompensation(seconds)`: looks up the
`latencyCompensation` parameter on the playback node and sets it only
when present (`if (latencyParam)`). -/
def Track.setLatencyCompensation (t : Track) (seconds : ℚ) : Track :=
  match paramGet t.playbackNode latencyCompensationName with
  | none => t
  | some _ => { t with playbackNode := paramSet t.playbackNode latencyCompensationName seconds }

/-- `Track.stop`: posts a `stop` message to the playback processor. -/
def Track.stop (t : Track) : Track :=
  { t with playbackNode := { t.playbackNode with
      proc := t.playbackNode.proc.handleMessage .stop } }

/-- The value `Track.getStats` resolves to: the five-field statistics
record, the `Track` object itself (the `return this` branch), or a
promise pending on the statistics worker, carrying the dirty slices
that were posted to it. -/
inductive StatsResult where
  | stats (rmsLeftDb peakLeftDb rmsRightDb peakRightDb crossChannelCorrelation : ℚ)
  | trackObject (t : Track)
  | pending (left right : List ℚ)
  deriving DecidableEq

/-- `Track.getStats`: returns the resolved value together with the
track state after the call (branch three resets the dirty region
before handing the slices to the worker; the other branches leave the
track untouched). -/
def Track.getStats (t : Track) : StatsResult × Track :=
  let sentinelGt : Bool :=
    match t.statsMinFrame, t.statsMaxFrame with
    | none, _ => true            -- Infinity > anything
    | some _, none => true       -- anything > -Infinity
    | some m, some M => decide (m > M)
  if sentinelGt then
    (.stats t.rmsLeftDb t.peakLeftDb t.rmsRightDb t.peakRightDb t.crossChannelCorrelation, t)
  else
    let m := t.statsMinFrame.getD 0
    let M := t.statsMaxFrame.getD 0
    let statsLength : ℤ := M - m
    if statsLength ≤ 0 then (.trackObject t, t)
    else
      let leftData := (t.audioLeft.drop m.toNat).take (M - m).toNat
      let rightData := (t.audioRight.drop m.toNat).take (M - m).toNat
      (.pending leftData rightData,
        { t with statsMinFrame := none, statsMaxFrame := none })

/-! ## SongState (src/model/SongState.js) — the timing subset consumed
by the transport scheduler. -/

structure SongSection where
  name : String
  bar_count : ℕ
  deriving DecidableEq

structure SongState where
  /-- `#bpm`; `none` is JavaScript `null`. -/
  bpm : Option ℚ
  /-- `#beatsPerBar`; `none` is JavaScript `null`. -/
  beatsPerBar : Option ℚ
  sections : List SongSection
  deriving DecidableEq

/-- `SongState.getBarDuration`: `0` when bpm or beatsPerBar is unset —
the guard `!this.#bpm || !this.#beatsPerBar` also catches the falsy
value `0`. -/
def SongState.getBarDuration (s : SongState) : ℚ :=
  match s.bpm, s.beatsPerBar with
  | some b, some bb => if b = 0 ∨ bb = 0 then 0 else (60 / b) * bb
  | _, _ => 0

/-- `SongState.getSectionStartTime`: `-1` when the bar duration is `0`
or the section is not found; otherwise the bar count of the sections
before it times the bar duration. -/
def SongState.getSectionStartTime (s : SongState) (sectionName : String) : ℚ :=
  let barDuration := s.getBarDuration
  if barDuration = 0 then -1
  else
    let rec go : List SongSection → ℕ → ℚ
      | [], _ => -1
      | sec :: rest, totalBars =>
        if sec.name = sectionName then (totalBars : ℚ) * barDuration
        else go rest (totalBars + sec.bar_count)
    go s.sections 0

/-- `SongState.getSectionDuration`: `bar_count * barDuration` when the
section exists and the bar duration is positive, `-1` otherwise. -/
def SongState.getSectionDuration (s : SongState) (sectionName : String) : ℚ :=
  let section? := s.sections.find? (fun sec => sec.name = sectionName)
  let barDuration := s.getBarDuration
  match section? with
  | some sec => if barDuration > 0 then (sec.bar_count : ℚ) * barDuration else -1
  | none => -1

/-! ## MetronomeEngine (the click source, in src/view/SongUI.js) -/

/-- The metronome's audible state: its output gain and the
`startFrame` last posted to the metronome processor. -/
structure MetronomeEngine where
  gainValue : ℚ
  processorStartFrame : ℚ
  deriving DecidableEq

/-- `MetronomeEngine.start`: restores a default volume of `0.5` when
the gain is `0`, and posts `startFrame = currentTime * sampleRate` to
the metronome processor.  (Called by `TapeDeckEngine.#play` with a
frame argument that the parameterless `start()` ignores.) -/
def MetronomeEngine.start (m : MetronomeEngine) (currentTime sampleRate : ℚ) :
    MetronomeEngine :=
  { gainValue := if m.gainValue = 0 then 1/2 else m.gainValue,
    processorStartFrame := currentTime * sampleRate }

/-- `MetronomeEngine.stop`: sets the output gain to `0`. -/
def MetronomeEngine.stop (m : MetronomeEngine) : MetronomeEngine :=
  { m with gainValue := 0 }

/-! ## TapeDeckEngine (src/unnamed/part_005) -/

/-- A capture block delivered by the recorder worklet:
`{ left, right, frameNumber }`. -/
structure CaptureBlock where
  left : List ℚ
  right : List ℚ
  frameNumber : ℤ
  deriving DecidableEq

structure TapeDeckEngine where
  tracks : List Track
  /-- `#activeTrack`, a 0-based index (set to `trackNumber - 1` by
  `#arm`, without validation). -/
  activeTrack : ℤ
  isRecording : Bool
  /-- `#recordingStartFrame`; `none` is JavaScript `null`. -/
  recordingStartFrame : Option ℤ
  metronome : MetronomeEngine
  songState : SongState
  deriving DecidableEq

/-- `List.modify` guarded the way JavaScript array indexing behaves in
the reachable states we consider (`0 ≤ i < length`). -/
def modifyTrack (tracks : List Track) (i : ℤ) (f : Track → Track) : List Track :=
  if 0 ≤ i then tracks.modify f i.toNat else tracks

/-- `TapeDeckEngine.#handleWorkletMessage` (together with the
`port.onmessage` guard on `#isRecording`): slices the capture block
and forwards the slice to the armed track. -/
def TapeDeckEngine.handleWorkletMessage (eng : TapeDeckEngine) (blk : CaptureBlock) :
    TapeDeckEngine :=
  if !eng.isRecording then eng
  else
    match eng.recordingStartFrame with
    | none => eng
    | some recordingStartFrame =>
      let messageEndFrame : ℤ := blk.frameNumber + blk.left.length
      if messageEndFrame < recordingStartFrame then eng
      else
        let writeStartFrameInMessage : ℕ := (max 0 (recordingStartFrame - blk.frameNumber)).toNat
        let trackStartFrame : ℤ :=
          max 0 (blk.frameNumber - recordingStartFrame) + writeStartFrameInMessage
        let leftToWrite := blk.left.drop writeStartFrameInMessage
        let rightToWrite := blk.right.drop writeStartFrameInMessage
        { eng with tracks := (modifyTrack eng.tracks eng.activeTrack
            (fun t => t.write leftToWrite rightToWrite trackStartFrame)) }

/-- `TapeDeckEngine.#arm`: logs and sets `#activeTrack` to
`trackNumber - 1`.  The source performs no range validation. -/
def TapeDeckEngine.arm (eng : TapeDeckEngine) (trackNumber : ℤ) : TapeDeckEngine :=
  { eng with activeTrack := trackNumber - 1 }

/-- `TapeDeckEngine.#setLatencyCompensation`: forwards to every
track. -/
def TapeDeckEngine.setLatencyCompensation (eng : TapeDeckEngine) (seconds : ℚ) :
    TapeDeckEngine :=
  { eng with tracks := eng.tracks.map (fun t => t.setLatencyCompensation seconds) }

/-- `indexOf` on the list of section names. -/
def indexOfName (names : List String) (name : String) : Option ℕ :=
  names.findIdx? (fun n => n = name)

/-- The body of `TapeDeckEngine.#getSectionsTimeInterval`, as a
function of the song state it reads (`this.#songState`): `none` models
the `null` return (falsy start name, unknown name, inverted range, or
unresolvable start time).  The `endTime` of the result is the start
time plus the summed durations of the sections in range. -/
def sectionsTimeInterval (song : SongState)
    (startSectionName : Option String) (endSectionName : Option String) :
    Option (ℚ × ℚ) :=
  match startSectionName with
  | none => none
  | some startName =>
    let allSectionNames := song.sections.map (·.name)
    let startIndex? := indexOfName allSectionNames startName
    let endIndex? := match endSectionName with
      | some endName => indexOfName allSectionNames endName
      | none => startIndex?
    match startIndex?, endIndex? with
    | some startIndex, some endIndex =>
      if startIndex > endIndex then none
      else
        let sectionsInRange := (allSectionNames.drop startIndex).take (endIndex + 1 - startIndex)
        let minStartTime := song.getSectionStartTime (sectionsInRange.getD 0 "")
        if minStartTime = -1 then none
        else
          let currentEndTime := sectionsInRange.foldl
            (fun acc sectionName => acc + song.getSectionDuration sectionName)
            minStartTime
          some (minStartTime, currentEndTime)
    | _, _ => none

/-- `TapeDeckEngine.#getSectionsTimeInterval`. -/
def TapeDeckEngine.getSectionsTimeInterval (eng : TapeDeckEngine)
    (startSectionName : Option String) (endSectionName : Option String) :
    Option (ℚ × ℚ) :=
  sectionsTimeInterval eng.songState startSectionName endSectionName

/-- `TapeDeckEngine.#play`: computes `startFrame` from the context
time plus a fixed 50 ms lead, starts the metronome, resolves the
section window — falling back to `{ startTime: 0, endTime: null }`
when the resolution returned `null` — and starts a playback range on
every track. -/
def TapeDeckEngine.play (eng : TapeDeckEngine) (currentTime sampleRate : ℚ)
    (startSection lastSection : Option String) (loop : Bool) : TapeDeckEngine :=
  let startTime := currentTime + 1/20
  let startFrame := jsRound (startTime * sampleRate)
  let eng := { eng with metronome := eng.metronome.start currentTime sampleRate }
  let tapeInterval : ℚ × Option ℚ :=
    match eng.getSectionsTimeInterval startSection lastSection with
    | some (s, e) => (s, some e)
    | none => (0, none)
  { eng with tracks := (eng.tracks.map
      (fun t => t.play startFrame tapeInterval.1 tapeInterval.2 loop)) }

/-- `TapeDeckEngine.startRecording`: schedules capture 50 ms ahead of
the context time. -/
def TapeDeckEngine.startRecording (eng : TapeDeckEngine) (currentTime sampleRate : ℚ) :
    TapeDeckEngine :=
  { eng with
    recordingStartFrame := some (jsRound (currentTime * sampleRate) + jsRound (sampleRate / 20))
    isRecording := true }

/-- `TapeDeckEngine.#record`: `#play` with the same window (loop
defaulting to `false`), then `startRecording`. -/
def TapeDeckEngine.record (eng : TapeDeckEngine) (currentTime sampleRate : ℚ)
    (startSection lastSection : Option String) : TapeDeckEngine :=
  (eng.play currentTime sampleRate startSection lastSection false).startRecording
    currentTime sampleRate

/-- `TapeDeckEngine.stop`: when recording, flushes the armed track
(`update()` then `getStats()`, whose result is only logged); then
clears the recording flag, stops the metronome, clears
`#recordingStartFrame` and posts `stop` to every track.
(`this.#tracks[this.#activeTrack || 0]` equals
`this.#tracks[this.#activeTrack]` for every number except `NaN`,
since `0 || 0` is `0`.) -/
def TapeDeckEngine.stop (eng : TapeDeckEngine) : TapeDeckEngine :=
  let eng :=
    if eng.isRecording then
      { eng with tracks := (modifyTrack eng.tracks eng.activeTrack
          (fun t => (Track.getStats t.update).2)) }
    else eng
  { eng with
    isRecording := false
    metronome := eng.metronome.stop
    recordingStartFrame := none
    tracks := eng.tracks.map Track.stop }

/-! ## MixerEngine

Two evolutionary snapshots of the mixer are in the repository:
`src/unnamed/part_002` (whose `Channel.setMuteLevel` takes a *muted*
boolean) and `src/model/MixerEngine.js` (whose `Channel.setMuteLevel`
takes a numeric gain *level*).  Both are embedded; the suffix
`Snapshot2` marks definitions from `part_002`.

The channel's derived `AudioNode` gain values (`10^(dB/20)` for the
gain and level nodes, the panner position) are pure functions of the
stored state fields and are not duplicated here; the mute node's gain
(`muteGate`) is kept explicitly since solo/mute resolution writes it
directly. -/

structure Channel where
  inputIsMono : Bool
  pan : ℚ
  mute : Bool
  solo : Bool
  gainDB : ℚ
  levelDB : ℚ
  /-- The mute node's gain: `0` silent, `1` passthrough. -/
  muteGate : ℚ
  deriving DecidableEq

/-- A fresh channel (field initializers; the mute node is a fresh
`GainNode`, gain `1`). -/
def Channel.init : Channel :=
  { inputIsMono := false, pan := 0, mute := false, solo := false,
    gainDB := 0, levelDB := 0, muteGate := 1 }

/-- `Channel.setPan` (also positions the panner node). -/
def Channel.setPan (ch : Channel) (panValue : ℚ) : Channel := { ch with pan := panValue }

/-- `Channel.setGainDB` (also sets the gain node to `10^(dB/20)`). -/
def Channel.setGainDB (ch : Channel) (gainDB : ℚ) : Channel := { ch with gainDB := gainDB }

/-- `Channel.setLevelDB` (also sets the level node to `10^(dB/20)`). -/
def Channel.setLevelDB (ch : Channel) (levelDB : ℚ) : Channel := { ch with levelDB := levelDB }

/-- `Channel.setInputIsMono` (src/model/MixerEngine.js; also rewires
the mono-sum node). -/
def Channel.setInputIsMono (ch : Channel) (isMono : Bool) : Channel :=
  if ch.inputIsMono = isMono then ch else { ch with inputIsMono := isMono }

/-- `Channel.setMute`: records the flag only — gating is resolved by
the mixer. -/
def Channel.setMute (ch : Channel) (isMuted : Bool) : Channel := { ch with mute := isMuted }

/-- `Channel.setSolo`: records the flag only — gating is resolved by
the mixer. -/
def Channel.setSolo (ch : Channel) (isSoloed : Bool) : Channel := { ch with solo := isSoloed }

/-- `Channel.setMuteLevel(level)` from src/model/MixerEngine.js: the
mute node's gain is set to the given numeric level. -/
def Channel.setMuteLevel (ch : Channel) (level : ℚ) : Channel := { ch with muteGate := level }

/-- `Channel.setMuteLevel(muted)` from src/unnamed/part_002: gain `0`
when `muted`, `1` otherwise. -/
def Channel.setMuteLevelSnapshot2 (ch : Channel) (muted : Bool) : Channel :=
  { ch with muteGate := if muted then 0 else 1 }

/-- `MixerEngine.#updateSoloStates` from src/unnamed/part_002.
`anySolo = this.#channels.some(ch => ch.isSoloed())`; with a solo
active, non-soloed channels get `setMuteLevel(true)` (silent) and
soloed ones `setMuteLevel(false)` (audible); with no solo active the
mute flag alone decides. -/
def updateSoloStatesSnapshot2 (channels : List Channel) : List Channel :=
  let anySolo := channels.any (·.solo)
  channels.map fun channel =>
    if anySolo then
      if !channel.solo then channel.setMuteLevelSnapshot2 true
      else channel.setMuteLevelSnapshot2 false
    else
      if channel.mute then channel.setMuteLevelSnapshot2 true
      else channel.setMuteLevelSnapshot2 false

/-- `MixerEngine.#updateSoloStates` from src/model/MixerEngine.js.
With a solo active this snapshot passes `setMuteLevel(1.0)` to the
*non-soloed* channels and `setMuteLevel(0.0)` to the soloed ones —
the numeric arguments are inverted relative to the comment above them
(“we should hear everything soloed”). -/
def updateSoloStatesModel (channels : List Channel) : List Channel :=
  let anySolo := channels.any (·.solo)
  channels.map fun channel =>
    if anySolo then
      if !channel.solo then channel.setMuteLevel 1
      else channel.setMuteLevel 0
    else
      if channel.mute then channel.setMuteLevel 0
      else channel.setMuteLevel 1

/-- The argument object of the `update_mixer_channel` tool; absent
optional fields are `none` (JavaScript `undefined`). -/
structure MixerArgs where
  channel : ℤ
  gainDB : Option ℚ := none
  levelDB : Option ℚ := none
  inputIsMono : Option Bool := none
  pan : Option ℚ := none
  mute : Option Bool := none
  solo : Option Bool := none
  deriving DecidableEq

structure MixerEngine where
  channels : List Channel
  deriving DecidableEq

/-- `MixerEngine.callTool('update_mixer_channel', args)` from
src/model/MixerEngine.js: an out-of-range channel number is logged
and nothing happens; otherwise each supplied field is applied to the
addressed channel, and a mute or solo update re-runs
`#updateSoloStates` across all channels. -/
def MixerEngine.callTool (st : MixerEngine) (args : MixerArgs) : MixerEngine :=
  let channelIndex := args.channel - 1
  if channelIndex < 0 ∨ channelIndex ≥ (st.channels.length : ℤ) then st
  else
    let i := channelIndex.toNat
    let st := match args.gainDB with
      | some g => { st with channels := st.channels.modify (·.setGainDB g) i }
      | none => st
    let st := match args.levelDB with
      | some l => { st with channels := st.channels.modify (·.setLevelDB l) i }
      | none => st
    let st := match args.inputIsMono with
      | some m => { st with channels := st.channels.modify (·.setInputIsMono m) i }
      | none => st
    let st := match args.pan with
      | some p => { st with channels := st.channels.modify (·.setPan p) i }
      | none => st
    let st := match args.mute with
      | some m =>
        { st with channels := updateSoloStatesModel (st.channels.modify (·.setMute m) i) }
      | none => st
    let st := match args.solo with
      | some s =>
        { st with channels := updateSoloStatesModel (st.channels.modify (·.setSolo s) i) }
      | none => st
    st

/-- `MixerEngine.callTool('update_mixer_channel', args)` from
src/unnamed/part_002: as above but without the `inputIsMono` branch
and resolving through that snapshot's `#updateSoloStates`. -/
def MixerEngine.callToolSnapshot2 (st : MixerEngine) (args : MixerArgs) : MixerEngine :=
  let channelIndex := args.channel - 1
  if channelIndex < 0 ∨ channelIndex ≥ (st.channels.length : ℤ) then st
  else
    let i := channelIndex.toNat
    let st := match args.gainDB with
      | some g => { st with channels := st.channels.modify (·.setGainDB g) i }
      | none => st
    let st := match args.levelDB with
      | some l => { st with channels := st.channels.modify (·.setLevelDB l) i }
      | none => st
    let st := match args.pan with
      | some p => { st with channels := st.channels.modify (·.setPan p) i }
      | none => st
    let st := match args.mute with
      | some m =>
        { st with channels := updateSoloStatesSnapshot2 (st.channels.modify (·.setMute m) i) }
      | none => st
    let st := match args.solo with
      | some s =>
        { st with channels := updateSoloStatesSnapshot2 (st.channels.modify (·.setSolo s) i) }
      | none => st
    st

/-! ## Saturator (src/unnamed/part_002) -/

/-- `curveSize = 2 * positiveSamples + 1`. -/
def curveSize (positiveSamples : ℕ) : ℕ := 2 * positiveSamples + 1

/-- `Saturator.#createCurve(positiveSamples, slopeAtZero)`: a table of
`curveSize` points, `x_i = 2*i/(curveSize-1) - 1`, entry
`tanh(k * x_i) / maxTanh` — the source takes `maxTanh = 1.0`
(commenting that `tanh(k)` is close to `1` for practical `k > 3`)
rather than `tanh(k)`. -/
noncomputable def Saturator.createCurve (positiveSamples : ℕ) (slopeAtZero : ℝ) : List ℝ :=
  let k := slopeAtZero
  let maxTanh : ℝ := 1
  (List.range (curveSize positiveSamples)).map fun (i : ℕ) =>
    Real.tanh (k * ((2 * (i : ℝ)) / ((curveSize positiveSamples : ℝ) - 1) - 1)) / maxTanh

/-! ## Concrete fixtures used to instantiate theorems -/

/-- An idle track with an 8-frame buffer of silence. -/
def sampleTrack : Track :=
  { audioLeft := List.replicate 8 0, audioRight := List.replicate 8 0, bufferLength := 8,
    rmsLeftDb := 0, peakLeftDb := 0, rmsRightDb := 0, peakRightDb := 0,
    crossChannelCorrelation := 0, statsMinFrame := none, statsMaxFrame := none,
    playbackNode := .init }

/-- A silent track with a 32-frame buffer. -/
def track32 : Track :=
  { sampleTrack with
    audioLeft := List.replicate 32 0
    audioRight := List.replicate 32 0
    bufferLength := 32 }

/-- A song at 120 BPM in 4/4 with a single 4-bar section `verse`
(so `verse` spans `[0 s, 8 s)`). -/
def sampleSong : SongState :=
  { bpm := some 120, beatsPerBar := some 4, sections := [⟨"verse", 4⟩] }

/-- A section name that `sampleSong` does not contain. -/
def chorusName : String := "chorus"

/-! ## Helper lemmas about `writeInto` -/

theorem writeInto_nil (buf : List ℚ) (s : ℕ) : writeInto buf [] s = buf := by
  simp [writeInto]

theorem writeInto_exact (buf data : List ℚ) (s : ℕ)
    (h : s + data.length = buf.length) :
    writeInto buf data s = buf.take s ++ data := by
  have h1 : buf.length - s = data.length := by omega
  simp [writeInto, h1, List.take_length, ← h, List.drop_length]

/-! ## C5: Track.write safety -/

/-- **C5.**  `Track.write(leftData, rightData, startFrame)`:
a negative `startFrame` leaves the track entirely unchanged; the
buffer lengths (and the fixed `bufferLength`) never change, for any
input whatsoever; and when the write would pass the end of the
buffer, nothing happens if `startFrame ≥ bufferLength`, while
otherwise exactly the first `bufferLength - startFrame` frames of the
data are written.  (The embedding is a total function: the call never
throws.) -/
theorem c5_track_write_safety :
    (∀ (t : Track) (l r : List ℚ) (s : ℤ), s < 0 → t.write l r s = t) ∧
    (∀ (t : Track) (l r : List ℚ) (s : ℤ),
      (t.write l r s).audioLeft.length = t.audioLeft.length ∧
      (t.write l r s).audioRight.length = t.audioRight.length ∧
      (t.write l r s).bufferLength = t.bufferLength) ∧
    (∀ (t : Track) (l r : List ℚ) (s : ℤ), 0 ≤ s →
      t.audioLeft.length = t.bufferLength → t.audioRight.length = t.bufferLength →
      r.length = l.length →
      (t.bufferLength : ℤ) < s + l.length →
      ((t.bufferLength : ℤ) ≤ s → t.write l r s = t) ∧
      (s < (t.bufferLength : ℤ) →
        (t.write l r s).audioLeft =
          t.audioLeft.take s.toNat ++ l.take (t.bufferLength - s.toNat) ∧
        (t.write l r s).audioRight =
          t.audioRight.take s.toNat ++ r.take (t.bufferLength - s.toNat))) := by
  refine ⟨?_, ?_, ?_⟩
  · intro t l r s hs
    simp [Track.write, hs]
  · intro t l r s
    by_cases hs : s < 0
    · simp [Track.write, hs]
    · by_cases hover : (s + l.length : ℤ) > (t.bufferLength : ℤ)
      · by_cases hftw : (t.bufferLength : ℤ) - s ≤ 0
        · simp [Track.write, hs, hover, hftw]
        · simp [Track.write, hs, hover, hftw, writeInto_length]
      · simp [Track.write, hs, hover, writeInto_length]
  · intro t l r s hs hlen hrlen hrl hover
    have hs0 : ¬ s < 0 := by omega
    constructor
    · intro hge
      have hftw : (t.bufferLength : ℤ) - s ≤ 0 := by omega
      simp [Track.write, hs0, hover, hftw]
    · intro hlt
      have hftw : ¬ ((t.bufferLength : ℤ) - s ≤ 0) := by omega
      have hkey : ((t.bufferLength : ℤ) - s).toNat = t.bufferLength - s.toNat := by omega
      have hkl : t.bufferLength - s.toNat ≤ l.length := by omega
      have hkr : t.bufferLength - s.toNat ≤ r.length := by omega
      have hL : s.toNat + (l.take (t.bufferLength - s.toNat)).length = t.audioLeft.length := by
        simp [List.length_take]
        omega
      have hR : s.toNat + (r.take (t.bufferLength - s.toNat)).length = t.audioRight.length := by
        simp [List.length_take]
        omega
      simp [Track.write, hs0, hover, hftw, hkey, writeInto_exact _ _ _ hL,
        writeInto_exact _ _ _ hR]

/-- Witness for C5 at concrete inputs: a write at `startFrame = -1` is
ignored, and a 10-frame write at `startFrame = 3` into the 8-frame
`sampleTrack` stores exactly the first 5 frames. -/
theorem c5_track_write_safety_witness :
    (sampleTrack.write [1] [1] (-1) = sampleTrack) ∧
    ((sampleTrack.write (List.replicate 10 1) (List.replicate 10 1) 3).audioLeft =
      (List.replicate 8 0).take 3 ++ (List.replicate 10 (1 : ℚ)).take 5) := by
  constructor
  · exact c5_track_write_safety.1 sampleTrack [1] [1] (-1) (by decide)
  · exact ((c5_track_write_safety.2.2 sampleTrack (List.replicate 10 1) (List.replicate 10 1) 3
      (by decide) (by decide) (by decide) (by decide) (by decide)).2 (by decide)).1

/-! ## C10: Track.getStats edge cases -/

/-- **C10.**  With an untouched dirty region (both trackers at their
sentinels), `Track.getStats` resolves to the cached five-field
statistics record and leaves the track unchanged.  A zero-length
write at a valid `startFrame` marks a dirty region with
`minFrame = maxFrame = startFrame`; `getStats` then returns the
`Track` object itself (the `return this` branch) instead of the
statistics record, and the dirty region is not reset. -/
theorem c10_getStats_zero_length_write :
    (∀ t : Track, t.statsMinFrame = none → t.statsMaxFrame = none →
      t.getStats.1 =
        .stats t.rmsLeftDb t.peakLeftDb t.rmsRightDb t.peakRightDb t.crossChannelCorrelation ∧
      t.getStats.2 = t) ∧
    (∀ (t : Track) (s : ℤ), t.statsMinFrame = none → t.statsMaxFrame = none →
      0 ≤ s → s ≤ (t.bufferLength : ℤ) →
      (t.write [] [] s).statsMinFrame = some s ∧
      (t.write [] [] s).statsMaxFrame = some s ∧
      (t.write [] [] s).getStats.1 = .trackObject (t.write [] [] s) ∧
      (t.write [] [] s).getStats.2 = t.write [] [] s) := by
  constructor
  · intro t hmin hmax
    constructor <;> simp [Track.getStats, hmin]
  · intro t s hmin hmax h0 hle
    have hs0 : ¬ s < 0 := by omega
    have hover : ¬ ((s + ([] : List ℚ).length : ℤ) > (t.bufferLength : ℤ)) := by
      simp
      omega
    have hwr : t.write [] [] s =
        { t with statsMinFrame := some s, statsMaxFrame := some s } := by
      simp [Track.write, hs0, hover, writeInto_nil, dirtyMin, dirtyMax, hmin, hmax]
      intro h _
      exact absurd h (by omega)
    rw [hwr]
    refine ⟨rfl, rfl, ?_, ?_⟩ <;> simp [Track.getStats]

/-- Witness for C10: the untouched `sampleTrack` yields its cached
record; after a zero-length write at frame 2 the dirty region is
`[2, 2)` and `getStats` yields the track object. -/
theorem c10_getStats_zero_length_write_witness :
    (sampleTrack.getStats.1 = .stats 0 0 0 0 0 ∧ sampleTrack.getStats.2 = sampleTrack) ∧
    ((sampleTrack.write [] [] 2).statsMinFrame = some 2 ∧
      (sampleTrack.write [] [] 2).statsMaxFrame = some 2 ∧
      (sampleTrack.write [] [] 2).getStats.1 = .trackObject (sampleTrack.write [] [] 2) ∧
      (sampleTrack.write [] [] 2).getStats.2 = sampleTrack.write [] [] 2) :=
  ⟨c10_getStats_zero_length_write.1 sampleTrack rfl rfl,
    c10_getStats_zero_length_write.2 sampleTrack 2 rfl rfl (by decide) (by decide)⟩

/-! ## C2: solo/mute resolution -/

/-- The resolution invariant of §4.3: with a solo active, a channel is
audible (gate `1`) iff it is soloed; with no solo active, a channel is
silent (gate `0`) iff its mute flag is set. -/
def soloMuteInvariant (channels : List Channel) : Prop :=
  ∀ i, i < channels.length →
    ((channels.any (·.solo) = true →
       ((channels.getD i .init).muteGate = 1 ↔ (channels.getD i .init).solo = true)) ∧
     (channels.any (·.solo) = false →
       ((channels.getD i .init).muteGate = 0 ↔ (channels.getD i .init).mute = true)))

theorem snapshot2_resolve_solo (chs : List Channel) :
    (updateSoloStatesSnapshot2 chs).any (·.solo) = chs.any (·.solo) := by
  unfold updateSoloStatesSnapshot2
  rw [List.any_map]
  congr 1
  funext c
  simp only [Function.comp_apply, Channel.setMuteLevelSnapshot2]
  split <;> split <;> rfl

theorem snapshot2_getD (chs : List Channel) (i : ℕ) (h : i < chs.length) :
    (updateSoloStatesSnapshot2 chs).getD i .init =
      (if chs.any (·.solo) then
        (if !(chs.getD i .init).solo then (chs.getD i .init).setMuteLevelSnapshot2 true
         else (chs.getD i .init).setMuteLevelSnapshot2 false)
       else
        (if (chs.getD i .init).mute then (chs.getD i .init).setMuteLevelSnapshot2 true
         else (chs.getD i .init).setMuteLevelSnapshot2 false)) := by
  unfold updateSoloStatesSnapshot2
  simp only [List.getD, List.get?_map]
  rcases hg : chs.get? i with _ | c
  · exact absurd (List.get?_eq_none.mp hg) (by omega)
  · simp [hg]

theorem snapshot2_invariant (chs : List Channel) :
    soloMuteInvariant (updateSoloStatesSnapshot2 chs) := by
  intro i hi
  have hlen : (updateSoloStatesSnapshot2 chs).length = chs.length := by
    unfold updateSoloStatesSnapshot2
    simp
  rw [hlen] at hi
  rw [snapshot2_resolve_solo, snapshot2_getD chs i hi]
  generalize chs.getD i Channel.init = c
  constructor
  · intro hany
    simp only [hany, if_true]
    by_cases hsolo : c.solo
    · simp [hsolo, Channel.setMuteLevelSnapshot2]
    · simp [hsolo, Channel.setMuteLevelSnapshot2]
  · intro hany
    simp only [hany, Bool.false_eq_true, if_false]
    by_cases hmute : c.mute
    · simp [hmute, Channel.setMuteLevelSnapshot2]
    · simp [hmute, Channel.setMuteLevelSnapshot2]

/-- **C2.**  After any mute or solo change through
`update_mixer_channel` the part_002 mixer recomputes every channel's
gate so that, with a solo active, gate `1` (audible) holds exactly for
soloed channels, and with no solo active gate `0` (silent) holds
exactly for muted channels.  The `src/model/MixerEngine.js` snapshot
of `#updateSoloStates`, by contrast, produces gates `[0, 1, 1]` on the
configuration `(mute,solo) = (F,T),(T,F),(F,F)` — silencing the
soloed channel and leaving the others audible — so the claimed
invariant fails on that snapshot. -/
theorem c2_solo_mute_resolution :
    ((∀ chs : List Channel, soloMuteInvariant (updateSoloStatesSnapshot2 chs)) ∧
     (∀ (st : MixerEngine) (c : ℤ) (v : Bool), 1 ≤ c → c ≤ st.channels.length →
       soloMuteInvariant ((st.callToolSnapshot2 { channel := c, solo := some v }).channels) ∧
       soloMuteInvariant ((st.callToolSnapshot2 { channel := c, mute := some v }).channels))) ∧
    (updateSoloStatesModel
      [{ Channel.init with solo := true }, { Channel.init with mute := true },
        Channel.init]).map (·.muteGate) = [0, 1, 1] := by
  refine ⟨⟨snapshot2_invariant, ?_⟩, by decide⟩
  intro st c v h1 h2
  have hvalid : ¬ (c - 1 < 0 ∨ c - 1 ≥ (st.channels.length : ℤ)) := by omega
  constructor
  · simp only [MixerEngine.callToolSnapshot2, hvalid, if_false]
    exact snapshot2_invariant _
  · simp only [MixerEngine.callToolSnapshot2, hvalid, if_false]
    exact snapshot2_invariant _

/-- Witness for C2: a 3-channel mixer where channel 1 is soloed via
the tool call; the invariant instance asserts channel 1's gate is `1`. -/
theorem c2_solo_mute_resolution_witness :
    (1 : ℤ) ≤ 1 ∧ (1 : ℤ) ≤ 3 ∧
    soloMuteInvariant
      ((MixerEngine.callToolSnapshot2 { channels := [Channel.init, Channel.init, Channel.init] }
        { channel := 1, solo := some true }).channels) :=
  ⟨by decide, by decide,
    (c2_solo_mute_resolution.1.2 { channels := [Channel.init, Channel.init, Channel.init] }
      1 true (by decide) (by decide)).1⟩

/-! ## C9: invalid addressing -/

/-- An idle engine: 16 silent tracks, track 1 (index 0) armed, not
recording. -/
def idleEngine : TapeDeckEngine :=
  { tracks := List.replicate 16 sampleTrack, activeTrack := 0, isRecording := false,
    recordingStartFrame := none, metronome := ⟨0, 0⟩, songState := sampleSong }

/-- A 16-channel mixer in its initial state. -/
def mixer16 : MixerEngine := { channels := List.replicate 16 Channel.init }

/-- Counterexample to C9 as stated: `arm(0)` — a track number outside
`[1,16]` — does **not** leave the active write target unchanged: the
source `#arm` performs no validation and sets `#activeTrack` to
`trackNumber - 1 = -1`. -/
theorem c9_arm_counterexample :
    (idleEngine.arm 0).activeTrack ≠ idleEngine.activeTrack := by
  decide

/-- **C9 (amended).**  `update_mixer_channel` with a channel number
outside `[1,16]` is logged and leaves the mixer completely unchanged
(and, being total, propagates no exception); `arm`, however, performs
no range validation: for *every* track number `n` it sets the active
write target to `n - 1`. -/
theorem c9_invalid_addressing :
    (∀ (st : MixerEngine) (args : MixerArgs), st.channels.length = 16 →
      (args.channel < 1 ∨ args.channel > 16) → st.callTool args = st) ∧
    (∀ (eng : TapeDeckEngine) (n : ℤ), (eng.arm n).activeTrack = n - 1) := by
  constructor
  · intro st args hlen hrange
    have hcond : args.channel - 1 < 0 ∨ args.channel - 1 ≥ (st.channels.length : ℤ) := by
      rw [hlen]
      omega
    simp only [MixerEngine.callTool, if_pos hcond]
  · intro eng n
    rfl

/-- Witness for C9: `update_mixer_channel` with channel `0` on the
initial 16-channel mixer changes nothing, and `arm 17` sets the
active write target to `16`. -/
theorem c9_invalid_addressing_witness :
    (mixer16.channels.length = 16 ∧ ((0 : ℤ) < 1 ∨ (0 : ℤ) > 16) ∧
      mixer16.callTool { channel := 0, mute := some true } = mixer16) ∧
    (idleEngine.arm 17).activeTrack = 17 - 1 :=
  ⟨⟨by decide, Or.inl (by decide),
    c9_invalid_addressing.1 mixer16 { channel := 0, mute := some true } (by decide)
      (Or.inl (by decide))⟩,
    c9_invalid_addressing.2 idleEngine 17⟩

/-! ## C6: setLatencyCompensation -/

/-- **C6.**  `setLatencyCompensation(seconds)` has no effect at all:
`Track.setLatencyCompensation` looks up a `latencyCompensation`
parameter, but `PlaybackProcessor.parameterDescriptors` declares only
`loopStart` and `loopDuration`, so the guarded lookup fails on every
track whose playback node carries the declared parameters, and the
engine-level call leaves every track — hence every track's effective
playback start offset — unchanged. -/
theorem c6_latency_compensation_noop :
    (∀ (t : Track) (s : ℚ),
      t.playbackNode.params.map Prod.fst = parameterDescriptorNames →
      t.setLatencyCompensation s = t) ∧
    (∀ (eng : TapeDeckEngine) (s : ℚ),
      (∀ t ∈ eng.tracks, t.playbackNode.params.map Prod.fst = parameterDescriptorNames) →
      eng.setLatencyCompensation s = eng) := by
  have hTrack : ∀ (t : Track) (s : ℚ),
      t.playbackNode.params.map Prod.fst = parameterDescriptorNames →
      t.setLatencyCompensation s = t := by
    intro t s h
    have hget : paramGet t.playbackNode latencyCompensationName = none := by
      unfold paramGet
      rw [List.find?_eq_none.mpr]
      · rfl
      intro p hp
      have hmem : p.1 ∈ parameterDescriptorNames := by
        rw [← h]
        exact List.mem_map_of_mem Prod.fst hp
      have : p.1 = loopStartName ∨ p.1 = loopDurationName := by
        simpa [parameterDescriptorNames] using hmem
      rcases this with h1 | h1 <;> simp [h1, loopStartName, loopDurationName,
        latencyCompensationName]
    unfold Track.setLatencyCompensation
    rw [hget]
  refine ⟨hTrack, ?_⟩
  intro eng s h
  unfold TapeDeckEngine.setLatencyCompensation
  have hmap : eng.tracks.map (fun t => t.setLatencyCompensation s) = eng.tracks := by
    have := List.map_congr_left (fun t ht => hTrack t s (h t ht))
    rw [this]
    exact List.map_id eng.tracks
  rw [hmap]

/-- Witness for C6 at `seconds = 1/2` on concrete states whose
playback nodes carry exactly the declared parameters. -/
theorem c6_latency_compensation_noop_witness :
    sampleTrack.setLatencyCompensation (1/2) = sampleTrack ∧
    idleEngine.setLatencyCompensation (1/2) = idleEngine :=
  ⟨c6_latency_compensation_noop.1 sampleTrack (1/2) (by decide),
    c6_latency_compensation_noop.2 idleEngine (1/2) (fun t ht => by
      have : t = sampleTrack := List.eq_of_mem_replicate ht
      rw [this]
      decide)⟩

/-! ## C3: unresolved section references -/

/-- Counterexample to C3 as stated: on the idle engine (whose song has
only a `verse` section), `play` with the unknown section `chorus`
does **not** degrade to a no-op: the metronome starts (its gain goes
from `0` to `0.5`) and track 1 begins playback (its processor's
`startFrame` goes from `-1` to the scheduled frame `0`). -/
theorem c3_play_counterexample :
    (idleEngine.play 0 1 (some chorusName) none false).metronome.gainValue = 1/2 ∧
    idleEngine.metronome.gainValue = 0 ∧
    ((idleEngine.play 0 1 (some chorusName) none false).tracks.getD 0
      sampleTrack).playbackNode.proc.startFrame = 0 ∧
    (idleEngine.tracks.getD 0 sampleTrack).playbackNode.proc.startFrame = -1 := by
  refine ⟨?_, rfl, ?_, rfl⟩
  · simp only [TapeDeckEngine.play, MetronomeEngine.start, idleEngine]
    norm_num
  · simp only [TapeDeckEngine.play, idleEngine, List.map_replicate]
    rw [List.getD_eq_getElem?_getD, List.getElem?_replicate]
    simp only [Track.play, PlaybackProcessor.handleMessage]
    norm_num [jsRound]

/-- **C3 (amended).**  A `play` or `record` whose start section name
does not occur in the song logs a warning, resolves the interval to
`null`, and then proceeds exactly as a call with *no* section
references: the full-track default window `{startTime: 0, endTime:
null}` is used, the metronome starts, and every track begins
playback (for `record`, capture is armed as well).  The command is
not a no-op. -/
theorem c3_unresolved_section_fallback :
    ∀ (eng : TapeDeckEngine) (ct sr : ℚ) (name : String) (endRef : Option String)
      (loop : Bool),
      name ∉ eng.songState.sections.map (·.name) →
      eng.getSectionsTimeInterval (some name) endRef = none ∧
      eng.play ct sr (some name) endRef loop = eng.play ct sr none none loop ∧
      eng.record ct sr (some name) endRef = eng.record ct sr none none := by
  intro eng ct sr name endRef loop hmem
  have hidx : indexOfName (eng.songState.sections.map (·.name)) name = none := by
    unfold indexOfName
    rw [List.findIdx?_eq_none_iff]
    intro x hx
    exact decide_eq_false fun h => hmem (h ▸ hx)
  have hintS : sectionsTimeInterval eng.songState (some name) endRef = none := by
    unfold sectionsTimeInterval
    cases endRef <;> simp [hidx]
  have hplay : ∀ lp : Bool, eng.play ct sr (some name) endRef lp = eng.play ct sr none none lp := by
    intro lp
    have h2 : sectionsTimeInterval eng.songState none none = none := rfl
    simp only [TapeDeckEngine.play, TapeDeckEngine.getSectionsTimeInterval]
    simp only [hintS, h2]
  refine ⟨hintS, hplay loop, ?_⟩
  unfold TapeDeckEngine.record
  rw [hplay false]

/-- Witness for C3 at the concrete idle engine and the unknown name
`chorus`. -/
theorem c3_unresolved_section_fallback_witness :
    idleEngine.getSectionsTimeInterval (some chorusName) none = none ∧
    idleEngine.play 0 1 (some chorusName) none false = idleEngine.play 0 1 none none false ∧
    idleEngine.record 0 1 (some chorusName) none = idleEngine.record 0 1 none none :=
  c3_unresolved_section_fallback idleEngine 0 1 chorusName none false (by decide)

/-! ## C7: playback addressing -/

theorem range_map_getD {α : Type} (f : ℕ → α) (n i : ℕ) (d : α) (h : i < n) :
    (((List.range n).map f).getD i d) = f i := by
  rw [List.getD_eq_getElem?_getD, List.getElem?_map, List.getElem?_range h]
  rfl

/-- `process` in its active state: both early returns disabled and a
positive effective loop duration; each rendered frame reads the buffer
at `bufferFrameIndex` and the playhead advances by one quantum. -/
theorem process_active (st : PlaybackProcessor) (sr ls ld : ℚ) (cf : ℤ)
    (h1 : st.startFrame ≠ -1) (h2 : st.leftBuffer.length ≠ 0)
    (h3 : ¬ cf < st.startFrame)
    (h4 : ¬ (effectiveRange st.leftBuffer.length sr ls ld).2 ≤ 0) :
    st.process sr ls ld cf =
      (((List.range framesPerQuantum).map fun i =>
          getOr0 st.leftBuffer
            (bufferFrameIndex (effectiveRange st.leftBuffer.length sr ls ld).1
              (effectiveRange st.leftBuffer.length sr ls ld).2 (st.playheadFrame + i)),
        (List.range framesPerQuantum).map fun i =>
          getOr0 st.rightBuffer
            (bufferFrameIndex (effectiveRange st.leftBuffer.length sr ls ld).1
              (effectiveRange st.leftBuffer.length sr ls ld).2 (st.playheadFrame + i))),
       { st with playheadFrame := st.playheadFrame + framesPerQuantum }) := by
  simp only [PlaybackProcessor.process]
  rw [if_neg (not_or.mpr ⟨h1, h2⟩), if_neg h3, if_neg h4]

/-- **C7 (amended).**  While a playback range
`[rangeStart, rangeEnd)` is active, each output frame index equals
`rangeStart + (playhead mod (rangeEnd - rangeStart))` *whether or not*
the range was started with `loop = true`: the processor stores no
loop flag (`start` messages with different flags produce identical
states), so playback always wraps.  The playhead advances exactly one
frame per rendered frame (frame `i` of a quantum reads index
`playhead + i`, and a quantum advances the playhead by
`framesPerQuantum`). -/
theorem c7_playback_addressing :
    (∀ (st : PlaybackProcessor) (sr ls ld : ℚ) (cf rangeStart rangeEnd : ℤ),
      st.startFrame ≠ -1 → ¬ cf < st.startFrame →
      rangeStart = ⌊ls * sr⌋ → 0 < ld → rangeEnd = rangeStart + ⌊ld * sr⌋ →
      0 ≤ rangeStart → rangeStart < rangeEnd → rangeEnd ≤ (st.leftBuffer.length : ℤ) →
      (∀ i, i < framesPerQuantum →
        (st.process sr ls ld cf).1.1.getD i 0 =
          getOr0 st.leftBuffer
            (rangeStart + (((st.playheadFrame : ℤ) + i) % (rangeEnd - rangeStart)))) ∧
      (st.process sr ls ld cf).2.playheadFrame = st.playheadFrame + framesPerQuantum) ∧
    (∀ (st : PlaybackProcessor) (sf : ℤ) (l₁ l₂ : Bool),
      st.handleMessage (.start sf l₁) = st.handleMessage (.start sf l₂)) := by
  constructor
  · intro st sr ls ld cf rangeStart rangeEnd h1 h3 hRS hld hRE hRS0 hlt hle
    have h2 : st.leftBuffer.length ≠ 0 := by omega
    have heff : effectiveRange st.leftBuffer.length sr ls ld = (rangeStart, rangeEnd - rangeStart) := by
      unfold effectiveRange
      simp only [gt_iff_lt]
      rw [if_pos hld, ← hRS, ← hRE]
      rw [min_eq_left (by omega), max_eq_right (by omega), min_eq_left hle,
        max_eq_right (by omega)]
    have h4 : ¬ (effectiveRange st.leftBuffer.length sr ls ld).2 ≤ 0 := by
      rw [heff]
      simpa using hlt
    rw [process_active st sr ls ld cf h1 h2 h3 h4, heff]
    constructor
    · intro i hi
      rw [range_map_getD _ _ _ _ hi]
      unfold bufferFrameIndex
      push_cast
      rfl
    · rfl
  · intro st sf l₁ l₂
    rfl

/-- Witness for C7: a started 4-frame looping range on a concrete
processor; frame 5 of the first rendered quantum reads wrapped index
`0 + (5 mod 4)`. -/
theorem c7_playback_addressing_witness :
    ((PlaybackProcessor.mk [10, 20, 30, 40] [10, 20, 30, 40] 0 0).process 1 0 4 0).1.1.getD 5 0 =
      getOr0 [10, 20, 30, 40] ((0 : ℤ) + (((0 : ℤ) + 5) % (4 - 0))) ∧
    ((PlaybackProcessor.mk [10, 20, 30, 40] [10, 20, 30, 40] 0 0).process 1 0 4 0).2.playheadFrame =
      0 + framesPerQuantum := by
  have h := c7_playback_addressing.1 (PlaybackProcessor.mk [10, 20, 30, 40] [10, 20, 30, 40] 0 0)
    1 0 4 0 0 4 (by decide) (by decide) (by norm_num) (by norm_num) (by norm_num)
    (by decide) (by decide) (by decide)
  exact ⟨h.1 5 (by decide), h.2⟩

/-- A processor holding a 4-frame buffer, started with `loop = false`. -/
def noLoopProc : PlaybackProcessor :=
  PlaybackProcessor.handleMessage
    ⟨[10, 20, 30, 40], [10, 20, 30, 40], -1, 0⟩ (.start 0 false)

/-- Counterexample to C7 as stated: started with `loop = false` over
the range `[0, 4)`, the playhead nevertheless wraps past the range
end — the first frame of the second rendered quantum (playhead `128`)
reads the sample at index `0 + (128 mod 4) = 0` (value `10`), not the
claim's clamped index `min(0 + 128, 4) = 4` (whose read yields `0`). -/
theorem c7_noloop_counterexample :
    ((noLoopProc.process 1 0 4 0).2.process 1 0 4 128).1.1.getD 0 0 = 10 ∧
    getOr0 [10, 20, 30, 40] (min ((0 : ℤ) + 128) 4) = 0 ∧ (10 : ℚ) ≠ 0 := by
  have heff : effectiveRange
      (PlaybackProcessor.mk ([10, 20, 30, 40] : List ℚ) [10, 20, 30, 40] 0 0).leftBuffer.length
      1 0 4 = (0, 4) := by
    norm_num [effectiveRange]
  have heff' : effectiveRange
      (PlaybackProcessor.mk ([10, 20, 30, 40] : List ℚ) [10, 20, 30, 40] 0 128).leftBuffer.length
      1 0 4 = (0, 4) := by
    norm_num [effectiveRange]
  have hrun1 : (noLoopProc.process 1 0 4 0).2 =
      ⟨[10, 20, 30, 40], [10, 20, 30, 40], 0, 128⟩ := by
    rw [show noLoopProc = ⟨[10, 20, 30, 40], [10, 20, 30, 40], 0, 0⟩ from rfl]
    rw [process_active _ 1 0 4 0 (by decide) (by decide) (by decide)
      (by rw [heff]; decide)]
    rfl
  refine ⟨?_, by decide, by decide⟩
  rw [hrun1]
  rw [process_active _ 1 0 4 128 (by decide) (by decide) (by decide)
    (by rw [heff']; decide)]
  have := range_map_getD
    (fun i => getOr0 [10, 20, 30, 40]
      (bufferFrameIndex (effectiveRange
        (PlaybackProcessor.mk ([10, 20, 30, 40] : List ℚ) [10, 20, 30, 40] 0 128).leftBuffer.length
        1 0 4).1
       (effectiveRange
        (PlaybackProcessor.mk ([10, 20, 30, 40] : List ℚ) [10, 20, 30, 40] 0 128).leftBuffer.length
        1 0 4).2 (128 + i)))
    framesPerQuantum 0 0 (by decide)
  rw [this, heff']
  decide

/-! ## C4: stop() -/

/-- A track whose playback processor has been started (frame `0`) over
an 8-frame buffer of ones, with the same content recorded in its audio
buffer. -/
def playingTrack : Track :=
  { sampleTrack with
    audioLeft := List.replicate 8 1
    audioRight := List.replicate 8 1
    playbackNode :=
      ⟨[(loopStartName, 0), (loopDurationName, 0)],
        ⟨List.replicate 8 1, List.replicate 8 1, 0, 0⟩⟩ }

/-- An engine recording onto track 1 while all 16 tracks play. -/
def recordingEngine : TapeDeckEngine :=
  { tracks := List.replicate 16 playingTrack, activeTrack := 0, isRecording := true,
    recordingStartFrame := some 0, metronome := ⟨1/2, 0⟩, songState := sampleSong }

/-- **C4.**  `stop()` halts capture and resets the scheduler to Idle
(`isRecording = false`, `recordingStartFrame = null`, metronome gain
`0`), leaves every track's buffer contents unchanged, and is
idempotent — but it does **not** halt playback: the playback
processor's message handler has no `stop` branch (`handleMessage` is
the identity on `stop` messages), so after `stop()` the track's
processor still renders buffer samples (value `1 ≠ 0`) on the next
quantum. -/
theorem c4_stop_does_not_halt_playback :
    (∀ st : PlaybackProcessor, st.handleMessage .stop = st) ∧
    recordingEngine.stop.isRecording = false ∧
    recordingEngine.stop.recordingStartFrame = none ∧
    recordingEngine.stop.metronome.gainValue = 0 ∧
    recordingEngine.stop.tracks.map (·.audioLeft) = recordingEngine.tracks.map (·.audioLeft) ∧
    recordingEngine.stop.tracks.map (·.audioRight) = recordingEngine.tracks.map (·.audioRight) ∧
    recordingEngine.stop.stop = recordingEngine.stop ∧
    ((recordingEngine.stop.tracks.getD 0 playingTrack).playbackNode.proc.process
      1 0 0 100).1.1.getD 0 0 = 1 ∧
    (1 : ℚ) ≠ 0 := by
  have hproc : (recordingEngine.stop.tracks.getD 0 playingTrack).playbackNode.proc =
      ⟨List.replicate 8 1, List.replicate 8 1, 0, 0⟩ := by decide
  have heff : effectiveRange
      (PlaybackProcessor.mk (List.replicate 8 (1 : ℚ)) (List.replicate 8 1) 0 0).leftBuffer.length
      1 0 0 = (0, 8) := by
    norm_num [effectiveRange]
  refine ⟨fun st => rfl, by decide, by decide, by decide, by decide, by decide, by decide,
    ?_, by decide⟩
  rw [hproc]
  rw [process_active _ 1 0 0 100 (by decide) (by decide) (by decide) (by rw [heff]; decide)]
  have := range_map_getD
    (fun i => getOr0 (List.replicate 8 1)
      (bufferFrameIndex (effectiveRange
        (PlaybackProcessor.mk (List.replicate 8 (1 : ℚ)) (List.replicate 8 1) 0 0).leftBuffer.length
        1 0 0).1
       (effectiveRange
        (PlaybackProcessor.mk (List.replicate 8 (1 : ℚ)) (List.replicate 8 1) 0 0).leftBuffer.length
        1 0 0).2 (0 + i)))
    framesPerQuantum 0 0 (by decide)
  rw [this, heff]
  decide

/-! ## C1: capture reassembly alignment -/

/-- An engine recording onto track 1 (32-frame buffer) with
`recordingStartFrame = 4`. -/
def captureEngine : TapeDeckEngine :=
  { tracks := [track32], activeTrack := 0, isRecording := true,
    recordingStartFrame := some 4, metronome := ⟨0, 0⟩, songState := sampleSong }

/-- A 10-frame capture block `[1..10]` starting at absolute frame `0`
— it straddles `recordingStartFrame = 4`. -/
def straddlingBlock : CaptureBlock :=
  { left := [1, 2, 3, 4, 5, 6, 7, 8, 9, 10], right := [1, 2, 3, 4, 5, 6, 7, 8, 9, 10],
    frameNumber := 0 }

/-- The next in-order 10-frame block `[11..20]`, at absolute frame
`10`. -/
def followingBlock : CaptureBlock :=
  { left := [11, 12, 13, 14, 15, 16, 17, 18, 19, 20],
    right := [11, 12, 13, 14, 15, 16, 17, 18, 19, 20], frameNumber := 10 }

/-- **C1.**  Handling the straddling block writes its trailing portion
(samples `5..10`, those at or after `recordingStartFrame = 4`) at
track offset `recordingStartFrame - blockStartFrame = 4`, **not** at
offset `0`: offset `0` stays untouched and offset `4` receives the
first kept sample.  Consequently handling the two sequential blocks
(the second lands at offset `10 - 4 = 6` and overwrites part of the
first) yields a buffer different from writing the concatenated,
correctly-trimmed signal in one pass at offset `0`. -/
theorem c1_capture_misalignment :
    ((captureEngine.handleWorkletMessage straddlingBlock).tracks.getD 0 track32).audioLeft.getD
      0 0 = 0 ∧
    ((captureEngine.handleWorkletMessage straddlingBlock).tracks.getD 0 track32).audioLeft.getD
      4 0 = 5 ∧
    ((captureEngine.handleWorkletMessage straddlingBlock).tracks.getD 0 track32).audioLeft =
      [0, 0, 0, 0, 5, 6, 7, 8, 9, 10, 0, 0, 0, 0, 0, 0, 0, 0, 0, 0, 0, 0, 0, 0, 0, 0, 0, 0,
        0, 0, 0, 0] ∧
    (((captureEngine.handleWorkletMessage straddlingBlock).handleWorkletMessage
        followingBlock).tracks.getD 0 track32).audioLeft ≠
      (track32.write [5, 6, 7, 8, 9, 10, 11, 12, 13, 14, 15, 16, 17, 18, 19, 20]
        [5, 6, 7, 8, 9, 10, 11, 12, 13, 14, 15, 16, 17, 18, 19, 20] 0).audioLeft := by
  refine ⟨by decide, by decide, by decide, by decide⟩

/-! ## C8: the saturation curve -/

theorem createCurve_getD (ps : ℕ) (k : ℝ) (i : ℕ) (h : i < curveSize ps) :
    (Saturator.createCurve ps k).getD i 0 =
      Real.tanh (k * ((2 * i : ℝ) / ((curveSize ps : ℝ) - 1) - 1)) := by
  unfold Saturator.createCurve
  rw [range_map_getD _ _ _ _ h, div_one]

theorem curveSize_cast_sub_one (ps : ℕ) (h : 1 ≤ ps) :
    ((curveSize ps : ℝ) - 1) = 2 * ps := by
  unfold curveSize
  push_cast
  ring

/-- Counterexample to C8 as stated: at `positiveSamples = 1`,
`slopeAtZero = 1` the claim makes the last table entry
`tanh(1·1)/tanh(1) = 1` exactly; the source divides by `maxTanh = 1.0`
instead of `tanh k`, so the generated entry is `tanh 1 < 1`. -/
theorem c8_endpoint_counterexample :
    (Saturator.createCurve 1 1).getD 2 0 = Real.tanh 1 ∧ Real.tanh 1 < 1 := by
  constructor
  · rw [createCurve_getD 1 1 2 (by decide)]
    norm_num [curveSize]
  · rw [Real.tanh_eq_sinh_div_cosh]
    exact (div_lt_one (Real.cosh_pos 1)).mpr (Real.sinh_lt_cosh 1)

/-- **C8 (amended).**  For every `positiveSamples ≥ 1` and
`slopeAtZero k > 0` the generated table has exactly
`2*positiveSamples + 1` entries with `table[i] = tanh(k·x_i)` (the
source's `maxTanh` is the constant `1.0`, not `tanh k`, so the claimed
normalisation does not happen); the table is odd-symmetric
(`table[i] = -table[size-1-i]`), its midpoint entry is `0`, and its
endpoints are `-tanh k` and `tanh k` (approaching but not equal to
`∓1`). -/
theorem c8_saturation_curve :
    ∀ (ps : ℕ) (k : ℝ), 1 ≤ ps → 0 < k →
      (Saturator.createCurve ps k).length = 2 * ps + 1 ∧
      (∀ i, i < curveSize ps →
        (Saturator.createCurve ps k).getD i 0 =
          Real.tanh (k * ((2 * i : ℝ) / ((curveSize ps : ℝ) - 1) - 1))) ∧
      (∀ i, i < curveSize ps →
        (Saturator.createCurve ps k).getD i 0 =
          -((Saturator.createCurve ps k).getD (curveSize ps - 1 - i) 0)) ∧
      (Saturator.createCurve ps k).getD ps 0 = 0 ∧
      (Saturator.createCurve ps k).getD 0 0 = -(Real.tanh k) ∧
      (Saturator.createCurve ps k).getD (curveSize ps - 1) 0 = Real.tanh k := by
  intro ps k hps hk
  have hps' : (0 : ℝ) < (ps : ℝ) := by
    exact_mod_cast Nat.pos_of_ne_zero (by omega)
  have hNe : (2 : ℝ) * ps ≠ 0 := by positivity
  have hcast := curveSize_cast_sub_one ps hps
  refine ⟨?_, createCurve_getD ps k, ?_, ?_, ?_, ?_⟩
  · unfold Saturator.createCurve
    simp [curveSize]
  · intro i hi
    have hi' : curveSize ps - 1 - i < curveSize ps := by
      unfold curveSize at hi ⊢
      omega
    rw [createCurve_getD ps k i hi, createCurve_getD ps k _ hi']
    have hx : ((2 : ℝ) * (curveSize ps - 1 - i : ℕ)) / ((curveSize ps : ℝ) - 1) - 1 =
        -((2 * i : ℝ) / ((curveSize ps : ℝ) - 1) - 1) := by
      have hle : i ≤ curveSize ps - 1 := by
        unfold curveSize at hi ⊢
        omega
      have h1 : 1 ≤ curveSize ps := by
        unfold curveSize
        omega
      rw [Nat.cast_sub hle, Nat.cast_sub h1]
      rw [hcast] at *
      have : ((curveSize ps : ℝ)) = 2 * ps + 1 := by
        unfold curveSize
        push_cast
        ring
      rw [this]
      field_simp
      ring
    rw [hx, mul_neg, Real.tanh_neg, neg_neg]
  · rw [createCurve_getD ps k ps (by unfold curveSize; omega)]
    rw [hcast]
    have : (2 * (ps : ℝ)) / (2 * ps) - 1 = 0 := by
      rw [div_self hNe]
      ring
    rw [this, mul_zero, Real.tanh_zero]
  · rw [createCurve_getD ps k 0 (by unfold curveSize; omega)]
    rw [hcast]
    have : (2 * ((0 : ℕ) : ℝ)) / (2 * ps) - 1 = -1 := by
      simp
    rw [this, mul_neg_one, Real.tanh_neg]
  · rw [createCurve_getD ps k _ (by unfold curveSize; omega)]
    rw [hcast]
    have hc : ((curveSize ps - 1 : ℕ) : ℝ) = 2 * ps := by
      unfold curveSize
      push_cast [Nat.cast_sub (by omega : 1 ≤ 2 * ps + 1)]
      ring
    rw [hc]
    have : (2 : ℝ) * (2 * ps) / (2 * ps) - 1 = 1 := by
      rw [mul_div_assoc, div_self hNe]
      ring
    rw [this, mul_one]

/-- Witness for C8 at `positiveSamples = 1`, `k = 1`: the midpoint
entry of the generated 3-point table is `0`. -/
theorem c8_saturation_curve_witness :
    (1 : ℕ) ≤ 1 ∧ (0 : ℝ) < 1 ∧ (Saturator.createCurve 1 1).getD 1 0 = 0 :=
  ⟨le_refl 1, one_pos, (c8_saturation_curve 1 1 (le_refl 1) one_pos).2.2.2.1⟩
